import Mathlib

/-!
Shallow embedding of `src/include/geometry.hpp` (the `Point` value type of a
voxel-raycasting project) and proofs of the specification claims about it.

The C++ `double` coordinates are modelled as real numbers; each member
function of `struct Point` becomes a Lean function.  Since several claims
speak about mutation and aliasing (which object is written, what a returned
reference denotes), every member call additionally gets a `...Call` function
giving its full effect on the store: the post-call state of the receiver,
the post-call state of the by-reference argument, and the returned value.
These are read off directly from the member-function bodies: a `const`
method never writes, an in-place operator writes only the receiver's
`xyz` array, and a returned `Point&` to `*this` is modelled as the
receiver's post-call value.
-/

namespace Raycast

/-- Embedding of `struct Point`: the `std::array<double,3> xyz` member,
with `xyz[0]`, `xyz[1]`, `xyz[2]` as the fields `x`, `y`, `z`. -/
structure Point where
  x : ℝ
  y : ℝ
  z : ℝ

/-- Embedding of `Matrix4d = std::array<std::array<double,4>,4>`,
row-major: `m i j` is row `i`, column `j`. -/
def Matrix4d : Type := Fin 4 → Fin 4 → ℝ

/-- Default constructor `Point() : xyz({0., 0., 0.})`. -/
def Point.mkDefault : Point := ⟨0, 0, 0⟩

/-- Constructor `Point(const Point& a, const Point& b)`:
`xyz({b.xyz[0]-a.xyz[0], b.xyz[1]-a.xyz[1], b.xyz[2]-a.xyz[2]})`. -/
def Point.ofTwo (a b : Point) : Point :=
  ⟨b.x - a.x, b.y - a.y, b.z - a.z⟩

/-- `operator+(const Point& p) const`. -/
def Point.add (p q : Point) : Point :=
  ⟨p.x + q.x, p.y + q.y, p.z + q.z⟩

/-- `operator-(const Point& p) const`. -/
def Point.sub (p q : Point) : Point :=
  ⟨p.x - q.x, p.y - q.y, p.z - q.z⟩

/-- `operator*(const double& d) const`. -/
def Point.mul (p : Point) (d : ℝ) : Point :=
  ⟨p.x * d, p.y * d, p.z * d⟩

/-- `operator/(const double& d) const`.  Division is the total real
division (the code performs the FP division unconditionally, with no
zero check and no exception path). -/
noncomputable def Point.div (p : Point) (d : ℝ) : Point :=
  ⟨p.x / d, p.y / d, p.z / d⟩

/-- Post-state of the receiver after `operator+=(const Point& p)`:
`xyz[0] += p.xyz[0], xyz[1] += p.xyz[1], xyz[2] += p.xyz[2]`. -/
def Point.iadd (p q : Point) : Point :=
  ⟨p.x + q.x, p.y + q.y, p.z + q.z⟩

/-- Post-state of the receiver after `operator-=(const Point& p)`. -/
def Point.isub (p q : Point) : Point :=
  ⟨p.x - q.x, p.y - q.y, p.z - q.z⟩

/-- Post-state of the receiver after `operator*=(const double& d)`. -/
def Point.imul (p : Point) (d : ℝ) : Point :=
  ⟨p.x * d, p.y * d, p.z * d⟩

/-- Post-state of the receiver after `operator/=(const double& d)`. -/
noncomputable def Point.idiv (p : Point) (d : ℝ) : Point :=
  ⟨p.x / d, p.y / d, p.z / d⟩

/-- `dot(const Point& p) const`. -/
def Point.dot (p q : Point) : ℝ :=
  p.x * q.x + p.y * q.y + p.z * q.z

/-- `cross(const Point& p) const`, exactly as written in the source:
`(xyz[1]*p.xyz[2] - p.xyz[1]*xyz[2], xyz[2]*p.xyz[0] - p.xyz[2]*xyz[0],
xyz[0]*p.xyz[1] - p.xyz[0]*xyz[1])`. -/
def Point.cross (p q : Point) : Point :=
  ⟨p.y * q.z - q.y * p.z, p.z * q.x - q.z * p.x, p.x * q.y - q.x * p.y⟩

/-- `norm1() const`: `std.abs(xyz[0]) + std.abs(xyz[1]) + std.abs(xyz[2])`. -/
def Point.norm1 (p : Point) : ℝ :=
  |p.x| + |p.y| + |p.z|

/-- `norm2() const`: `std.sqrt(xyz[0]*xyz[0] + xyz[1]*xyz[1] + xyz[2]*xyz[2])`,
with `std.sqrt` modelled as the exact real square root. -/
noncomputable def Point.norm2 (p : Point) : ℝ :=
  Real.sqrt (p.x * p.x + p.y * p.y + p.z * p.z)

/-- `normInf() const`: `std.max(std.abs(xyz[0]), std.max(std.abs(xyz[1]), std.abs(xyz[2])))`. -/
def Point.normInf (p : Point) : ℝ :=
  max |p.x| (max |p.y| |p.z|)

/-- `transform(const Matrix4d& m)`: post-state of the receiver.  The three
locals `new_x`, `new_y`, `new_z` are all computed from the pre-call `xyz`
before any store to `xyz` happens, exactly as in the source. -/
def Point.transform (p : Point) (m : Matrix4d) : Point :=
  let new_x := p.x * m 0 0 + p.y * m 0 1 + p.z * m 0 2 + m 0 3
  let new_y := p.x * m 1 0 + p.y * m 1 1 + p.z * m 1 2 + m 1 3
  let new_z := p.x * m 2 0 + p.y * m 2 1 + p.z * m 2 2 + m 2 3
  ⟨new_x, new_y, new_z⟩

/-- `operator[](const int i) const`: the source reads `xyz[i]` with no
bounds check, so for `i` outside `{0,1,2}` the result is undefined; the
unconstrained oracle `junk` models that undefined value. -/
def Point.opIndex (p : Point) (i : ℕ) (junk : ℝ) : ℝ :=
  match i with
  | 0 => p.x
  | 1 => p.y
  | 2 => p.z
  | _ => junk

/-- Mutable `operator[](const int i)` followed by a store of `v` through
the returned reference: writes `xyz[i]` with no bounds check, so for `i`
outside `{0,1,2}` the resulting object state is undefined; the
unconstrained oracle `bad` models that undefined state. -/
def Point.opIndexWrite (p : Point) (i : ℕ) (v : ℝ) (bad : Point) : Point :=
  match i with
  | 0 => ⟨v, p.y, p.z⟩
  | 1 => ⟨p.x, v, p.z⟩
  | 2 => ⟨p.x, p.y, v⟩
  | _ => bad

/-- Full effect of `a + p` on the store: (receiver after, argument after,
returned value).  The operator is `const` and takes `p` by `const`
reference; its body contains no store, so both post-states are the
pre-states. -/
def Point.addCall (p q : Point) : Point × Point × Point := (p, q, p.add q)

/-- Full effect of `a - p` on the store. -/
def Point.subCall (p q : Point) : Point × Point × Point := (p, q, p.sub q)

/-- Full effect of `a * d` on the store: (receiver after, returned value). -/
def Point.mulCall (p : Point) (d : ℝ) : Point × Point := (p, p.mul d)

/-- Full effect of `a / d` on the store. -/
noncomputable def Point.divCall (p : Point) (d : ℝ) : Point × Point := (p, p.div d)

/-- Full effect of `a += p`: the receiver is overwritten and the returned
`Point&` is `*this`, i.e. the receiver's post-state; `p` is untouched. -/
def Point.iaddCall (p q : Point) : Point × Point × Point :=
  (p.iadd q, q, p.iadd q)

/-- Full effect of `a -= p`. -/
def Point.isubCall (p q : Point) : Point × Point × Point :=
  (p.isub q, q, p.isub q)

/-- Full effect of `a *= d`: (receiver after, returned value). -/
def Point.imulCall (p : Point) (d : ℝ) : Point × Point :=
  (p.imul d, p.imul d)

/-- Full effect of `a /= d`. -/
noncomputable def Point.idivCall (p : Point) (d : ℝ) : Point × Point :=
  (p.idiv d, p.idiv d)

/-- Full effect of `a.dot(p)`: (receiver after, argument after, returned
scalar). -/
def Point.dotCall (p q : Point) : Point × Point × ℝ := (p, q, p.dot q)

/-- Full effect of `a.cross(p)`. -/
def Point.crossCall (p q : Point) : Point × Point × Point := (p, q, p.cross q)

/-- Full effect of `a.norm1()`: (receiver after, returned scalar). -/
def Point.norm1Call (p : Point) : Point × ℝ := (p, p.norm1)

/-- Full effect of `a.norm2()`. -/
noncomputable def Point.norm2Call (p : Point) : Point × ℝ := (p, p.norm2)

/-- Full effect of `a.normInf()`. -/
def Point.normInfCall (p : Point) : Point × ℝ := (p, p.normInf)

/-- Full effect of `a.transform(m)`: the receiver is overwritten, the
matrix is taken by `const` reference and never written, and the returned
`Point&` is `*this`. -/
def Point.transformCall (p : Point) (m : Matrix4d) : Point × Matrix4d × Point :=
  (p.transform m, m, p.transform m)

/-- The 4x4 identity matrix. -/
def idMatrix : Matrix4d := fun i j => if i = j then 1 else 0

/-- Claim C3: `p.cross(q)` returns the standard right-handed cross product
componentwise, modifies neither operand, and in particular
`Point(1,0,0).cross(Point(0,1,0)) == Point(0,0,1)`. -/
theorem C3_cross_product (p q : Point) :
    p.crossCall q =
      (p, q, (⟨p.y * q.z - q.y * p.z, p.z * q.x - q.z * p.x,
              p.x * q.y - q.x * p.y⟩ : Point)) ∧
    Point.cross ⟨1, 0, 0⟩ ⟨0, 1, 0⟩ = (⟨0, 0, 1⟩ : Point) := by
  refine ⟨rfl, ?_⟩
  simp only [Point.cross]
  norm_num

/-- Claim C5: the two-instance constructor `Point(a, b)` builds the
directed displacement `b - a` componentwise, and equals `b - a` computed
by the subtraction operator. -/
theorem C5_two_point_ctor (a b : Point) :
    (Point.ofTwo a b).x = b.x - a.x ∧
    (Point.ofTwo a b).y = b.y - a.y ∧
    (Point.ofTwo a b).z = b.z - a.z ∧
    Point.ofTwo a b = b.sub a :=
  ⟨rfl, rfl, rfl, rfl⟩

/-- Claim C6: scalar multiplication and division are componentwise
(`(p*d)[i] = p[i]*d`, `(p/d)[i] = p[i]/d`); division by `d = 0` is not
checked and raises no error: the operation is total and still produces a
`Point` whose components are the unchecked quotients `p[i]/0`. -/
theorem C6_scalar_ops (p : Point) (d : ℝ) :
    (p.mul d).x = p.x * d ∧ (p.mul d).y = p.y * d ∧ (p.mul d).z = p.z * d ∧
    (p.div d).x = p.x / d ∧ (p.div d).y = p.y / d ∧ (p.div d).z = p.z / d ∧
    p.div 0 = (⟨p.x / 0, p.y / 0, p.z / 0⟩ : Point) :=
  ⟨rfl, rfl, rfl, rfl, rfl, rfl, rfl⟩

/-- Claim C7: for every point `p`, `p + zero == p` and `p - p == zero`,
where `zero` is the default-constructed point. -/
theorem C7_additive_identity (p : Point) :
    p.add Point.mkDefault = p ∧ p.sub p = Point.mkDefault := by
  constructor <;> simp [Point.add, Point.sub, Point.mkDefault]

/-- Claim C8: each in-place operator overwrites the receiver's three
coordinates componentwise from their pre-call values and returns a
reference to the receiver (the returned value is the receiver's
post-state). -/
theorem C8_inplace_ops (p q : Point) (d : ℝ) :
    (p.iaddCall q).1 = (⟨p.x + q.x, p.y + q.y, p.z + q.z⟩ : Point) ∧
    (p.iaddCall q).2.2 = (p.iaddCall q).1 ∧
    (p.isubCall q).1 = (⟨p.x - q.x, p.y - q.y, p.z - q.z⟩ : Point) ∧
    (p.isubCall q).2.2 = (p.isubCall q).1 ∧
    (p.imulCall d).1 = (⟨p.x * d, p.y * d, p.z * d⟩ : Point) ∧
    (p.imulCall d).2 = (p.imulCall d).1 ∧
    (p.idivCall d).1 = (⟨p.x / d, p.y / d, p.z / d⟩ : Point) ∧
    (p.idivCall d).2 = (p.idivCall d).1 :=
  ⟨rfl, rfl, rfl, rfl, rfl, rfl, rfl, rfl⟩

/-- Claim C10: no operation modifies an operand it does not own: the
`const` operations leave receiver and argument unchanged, and the
in-place operations leave the non-receiver argument unchanged. -/
theorem C10_frame_conditions (p q : Point) (d : ℝ) (m : Matrix4d) :
    (p.addCall q).1 = p ∧ (p.addCall q).2.1 = q ∧
    (p.subCall q).1 = p ∧ (p.subCall q).2.1 = q ∧
    (p.mulCall d).1 = p ∧ (p.divCall d).1 = p ∧
    (p.dotCall q).1 = p ∧ (p.dotCall q).2.1 = q ∧
    (p.crossCall q).1 = p ∧ (p.crossCall q).2.1 = q ∧
    (p.norm1Call).1 = p ∧ (p.norm2Call).1 = p ∧ (p.normInfCall).1 = p ∧
    (p.iaddCall q).2.1 = q ∧ (p.isubCall q).2.1 = q ∧
    (p.transformCall m).2.1 = m :=
  ⟨rfl, rfl, rfl, rfl, rfl, rfl, rfl, rfl, rfl, rfl, rfl, rfl, rfl, rfl,
   rfl, rfl⟩

/-- Claim C1: `p.transform(m)` overwrites the receiver with the affine
image of the pre-call coordinates (`new_x = x*m[0][0] + y*m[0][1] +
z*m[0][2] + m[0][3]` and analogously for rows 1 and 2, using no
partially-updated value), returns a reference to the receiver, and the
4x4 identity matrix leaves every point unchanged. -/
theorem C1_transform_affine (p : Point) (m : Matrix4d) :
    (p.transformCall m).1 =
      (⟨p.x * m 0 0 + p.y * m 0 1 + p.z * m 0 2 + m 0 3,
        p.x * m 1 0 + p.y * m 1 1 + p.z * m 1 2 + m 1 3,
        p.x * m 2 0 + p.y * m 2 1 + p.z * m 2 2 + m 2 3⟩ : Point) ∧
    (p.transformCall m).2.2 = (p.transformCall m).1 ∧
    p.transform idMatrix = p := by
  refine ⟨rfl, rfl, ?_⟩
  simp [Point.transform, idMatrix, Fin.ext_iff,
    show ((3 : Fin 4) : ℕ) = 3 from rfl]

/-- Claim C2: the result of `transform` never depends on row 3 of the
matrix: two matrices agreeing on rows 0, 1, 2 produce identical
coordinates (and no homogeneous divide appears in the computed value). -/
theorem C2_row3_never_consulted (p : Point) (m m' : Matrix4d)
    (h : ∀ i : Fin 4, (i : ℕ) < 3 → ∀ j : Fin 4, m i j = m' i j) :
    p.transform m = p.transform m' := by
  simp only [Point.transform,
    h 0 (by decide), h 1 (by decide), h 2 (by decide)]

/-- Witness for C2 at a concrete point and a concrete pair of matrices
that differ only in row 3. -/
theorem C2_row3_never_consulted_witness :
    (∀ i : Fin 4, (i : ℕ) < 3 → ∀ j : Fin 4,
      (fun a _ => if a = (3 : Fin 4) then (1 : ℝ) else 0) i j =
        (fun _ _ => (0 : ℝ)) i j) ∧
    Point.transform ⟨1, 2, 3⟩ (fun a _ => if a = (3 : Fin 4) then (1 : ℝ) else 0) =
      Point.transform ⟨1, 2, 3⟩ (fun _ _ => (0 : ℝ)) := by
  have h : ∀ i : Fin 4, (i : ℕ) < 3 → ∀ j : Fin 4,
      (fun a _ => if a = (3 : Fin 4) then (1 : ℝ) else 0) i j =
        (fun _ _ => (0 : ℝ)) i j := by
    intro i hi j
    have hne : i ≠ 3 := Fin.ne_of_val_ne (by omega)
    simp [hne]
  exact ⟨h, C2_row3_never_consulted ⟨1, 2, 3⟩ _ _ h⟩

/-- Claim C4: `norm2 p ≥ 0`, `norm2 zero = 0`, and the norm chain
`normInf p ≤ norm2 p ≤ norm1 p` holds for every point. -/
theorem C4_norm_chain (p : Point) :
    0 ≤ p.norm2 ∧ Point.mkDefault.norm2 = 0 ∧
    p.normInf ≤ p.norm2 ∧ p.norm2 ≤ p.norm1 := by
  obtain ⟨x, y, z⟩ := p
  refine ⟨Real.sqrt_nonneg _, ?_, ?_, ?_⟩
  · simp [Point.mkDefault, Point.norm2]
  · have key : ∀ a b c : ℝ,
        |a| ≤ Real.sqrt (a * a + b * b + c * c) := by
      intro a b c
      rw [← Real.sqrt_mul_self_eq_abs]
      exact Real.sqrt_le_sqrt (by nlinarith [mul_self_nonneg b, mul_self_nonneg c])
    simp only [Point.normInf, Point.norm2]
    refine max_le (key x y z) (max_le ?_ ?_)
    · have := key y x z
      calc |y| ≤ Real.sqrt (y * y + x * x + z * z) := this
        _ = Real.sqrt (x * x + y * y + z * z) := by ring_nf
    · have := key z x y
      calc |z| ≤ Real.sqrt (z * z + x * x + y * y) := this
        _ = Real.sqrt (x * x + y * y + z * z) := by ring_nf
  · simp only [Point.norm2, Point.norm1]
    have habs : (0 : ℝ) ≤ |x| + |y| + |z| := by positivity
    rw [show x * x + y * y + z * z = |x| * |x| + |y| * |y| + |z| * |z| by
      simp [abs_mul_abs_self]]
    calc Real.sqrt (|x| * |x| + |y| * |y| + |z| * |z|)
        ≤ Real.sqrt ((|x| + |y| + |z|) * (|x| + |y| + |z|)) := by
          refine Real.sqrt_le_sqrt ?_
          nlinarith [abs_nonneg x, abs_nonneg y, abs_nonneg z,
            mul_nonneg (abs_nonneg x) (abs_nonneg y),
            mul_nonneg (abs_nonneg x) (abs_nonneg z),
            mul_nonneg (abs_nonneg y) (abs_nonneg z)]
      _ = |x| + |y| + |z| := Real.sqrt_mul_self habs

/-- Claim C9: indexed access performs no bounds check: for `i` in
`{0,1,2}` the read form returns the `i`-th stored coordinate and the
mutable form writes exactly that coordinate; for any out-of-range index
the result is undefined (it equals the arbitrary oracle value, so nothing
is guaranteed), and no error is reported in either case. -/
theorem C9_unchecked_indexing (p : Point) (junk v : ℝ) (bad : Point) :
    p.opIndex 0 junk = p.x ∧ p.opIndex 1 junk = p.y ∧
    p.opIndex 2 junk = p.z ∧
    p.opIndexWrite 0 v bad = (⟨v, p.y, p.z⟩ : Point) ∧
    p.opIndexWrite 1 v bad = (⟨p.x, v, p.z⟩ : Point) ∧
    p.opIndexWrite 2 v bad = (⟨p.x, p.y, v⟩ : Point) ∧
    (∀ i : ℕ, p.opIndex (i + 3) junk = junk ∧
      p.opIndexWrite (i + 3) v bad = bad) :=
  ⟨rfl, rfl, rfl, rfl, rfl, rfl, fun _ => ⟨rfl, rfl⟩⟩

end Raycast
